import Mathlib

/-!
Shallow embedding of the Horizon digital-twin simulation core
(`src/ml/device_models.py`, `src/ml/thermal_model.py`, `src/ml/digital_twin.py`)
over the rationals, with theorems settling the frozen specification claims.

Conventions of the embedding:
* Python floats are modelled as `ℚ`; `round(x, n)` is modelled by `roundTo n`
  (round-to-nearest on the rational, ties away from the lower grid point —
  tie behaviour is never load-bearing for the claims).
* Python `Optional` values are `Option`; Python dicts keyed by device/room id
  are association lists preserving insertion order.
* Wall-clock reads (`time.time()`, the current hour of day) and the solar
  irradiance value `compute_solar_irradiance(current_hour)` (a trigonometric
  function, external to the rational embedding) enter `ingest_telemetry` as
  explicit arguments.
-/

/-- `round(x, n)` of Python, on rationals: round to the nearest multiple of
`10⁻ⁿ`. -/
def roundTo (n : ℕ) (x : ℚ) : ℚ := (round (x * 10 ^ n) : ℤ) / 10 ^ n

-- ─── AC (Split Unit) Model — src/ml/device_models.py ───────────────────────

/-- Live computed state of an AC unit (`ACState`). -/
structure ACState where
  setpoint_c : ℚ := 24
  room_temp_c : ℚ := 25
  status : String := "on"
  power_kw : ℚ := 0
  cooling_output_kw : ℚ := 0
  cop : ℚ := 3
  compressor_load_pct : ℚ := 0
  runtime_minutes : ℚ := 0
  cycles_today : ℤ := 0
deriving Repr, DecidableEq

/-- `ACModel`: the state plus the private `_was_on` flag. (`device_id`,
`room_id`, `name` live in the twin's maps and are not repeated here.) -/
structure ACModel where
  state : ACState := {}
  was_on : Bool := false
deriving Repr, DecidableEq

namespace ACModel

/-- Constants of `ACModel` (RATED_POWER_KW = 1.8, COP_NOMINAL = 3.2,
MIN_COMPRESSOR_PCT = 30). -/
def RATED_POWER_KW : ℚ := 9 / 5
def COP_NOMINAL : ℚ := 16 / 5
def MIN_COMPRESSOR_PCT : ℚ := 30

/-- `ACModel.step(dt_seconds, room_temp_c, outside_temp_c, setpoint_c, status)`. -/
def step (m : ACModel) (dt_seconds room_temp_c outside_temp_c setpoint_c : ℚ)
    (status : String) : ACModel :=
  let s := { m.state with setpoint_c := setpoint_c, room_temp_c := room_temp_c,
                          status := status }
  if status ≠ "on" then
    { state := { s with power_kw := 0, cooling_output_kw := 0, compressor_load_pct := 0,
                        cycles_today := if m.was_on then s.cycles_today + 1 else s.cycles_today },
      was_on := false }
  else
    let s := if ¬ m.was_on then { s with cycles_today := s.cycles_today + 1 } else s
    let delta_outdoor := max 0 (outside_temp_c - 35)
    let cop := max (3 / 2) (COP_NOMINAL - (1 / 20) * delta_outdoor)
    let temp_error := room_temp_c - setpoint_c
    let compressor_pct :=
      if temp_error ≤ 0 then MIN_COMPRESSOR_PCT
      else min 100 (MIN_COMPRESSOR_PCT + temp_error * 20)
    let power := roundTo 3 (RATED_POWER_KW * (compressor_pct / 100))
    { state := { s with cop := cop, compressor_load_pct := compressor_pct,
                        power_kw := power,
                        cooling_output_kw := roundTo 3 (power * cop),
                        runtime_minutes := s.runtime_minutes + dt_seconds / 60 },
      was_on := true }

end ACModel

-- ─── EV Charger Model — src/ml/device_models.py ────────────────────────────

/-- Live computed state of the EV charger (`EVState`). -/
structure EVState where
  soc_pct : ℚ := 45
  status : String := "standby"
  power_kw : ℚ := 0
  max_charge_rate_kw : ℚ := 7
  battery_capacity_kwh : ℚ := 60
  energy_delivered_kwh : ℚ := 0
  estimated_full_time : Option String := none
  estimated_target_time : Option String := none
  time_to_target_minutes : ℚ := 0
deriving Repr, DecidableEq

namespace EVChargerModel

/-- CHARGE_EFFICIENCY = 0.92, CV_TAPER_START_SOC = 80. -/
def CHARGE_EFFICIENCY : ℚ := 23 / 25
def CV_TAPER_START_SOC : ℚ := 80

/-- `EVChargerModel.step(dt_seconds, plugged_in, target_soc, departure_time)`.
The model object holds only its `EVState`; `departure_time` is accepted and
ignored, exactly as in the source. -/
def step (s : EVState) (dt_seconds : ℚ) (plugged_in : Bool) (target_soc : ℚ)
    (departure_time : Option String) : EVState :=
  let _ := departure_time
  let dt_hours := dt_seconds / 3600
  if plugged_in = false ∨ 100 ≤ s.soc_pct then
    { s with power_kw := 0,
             status := if target_soc ≤ s.soc_pct then "complete" else "standby" }
  else if target_soc ≤ s.soc_pct then
    { s with power_kw := 0, status := "complete" }
  else
    let charge_rate :=
      if s.soc_pct < CV_TAPER_START_SOC then s.max_charge_rate_kw
      else
        let taper_fraction := (s.soc_pct - CV_TAPER_START_SOC) / (100 - CV_TAPER_START_SOC)
        s.max_charge_rate_kw * max (1 / 5) (1 - (4 / 5) * taper_fraction)
    let energy_step := charge_rate * CHARGE_EFFICIENCY * dt_hours
    let soc_increment := (energy_step / s.battery_capacity_kwh) * 100
    let soc := min 100 (roundTo 2 (s.soc_pct + soc_increment))
    let remaining_kwh := (target_soc - soc) / 100 * s.battery_capacity_kwh
    let ttm :=
      if 0 < charge_rate ∧ 0 < remaining_kwh then
        roundTo 1 (remaining_kwh / (charge_rate * CHARGE_EFFICIENCY) * 60)
      else 0
    { s with power_kw := roundTo 3 charge_rate,
             status := "charging",
             energy_delivered_kwh := s.energy_delivered_kwh + energy_step,
             soc_pct := soc,
             time_to_target_minutes := ttm }

end EVChargerModel

-- ─── Water Heater (Tank) Model — src/ml/device_models.py ───────────────────

/-- Live computed state of the water heater (`WaterHeaterState`). -/
structure WaterHeaterState where
  water_temp_c : ℚ := 45
  target_temp_c : ℚ := 60
  status : String := "on"
  power_kw : ℚ := 0
  element_on : Bool := false
  heat_loss_rate_kw : ℚ := 0
  energy_stored_kwh : ℚ := 0
deriving Repr, DecidableEq

namespace WaterHeaterModel

/-- ELEMENT_POWER_KW = 3, ELEMENT_EFFICIENCY = 0.95,
THERMAL_MASS_KWH_PER_K = 0.2325, LOSS_COEFF_KW_PER_K = 0.002,
DEAD_BAND_C = 3, AMBIENT_C = 28. -/
def ELEMENT_POWER_KW : ℚ := 3
def ELEMENT_EFFICIENCY : ℚ := 19 / 20
def THERMAL_MASS_KWH_PER_K : ℚ := 93 / 400
def LOSS_COEFF_KW_PER_K : ℚ := 1 / 500
def DEAD_BAND_C : ℚ := 3
def AMBIENT_C : ℚ := 28

/-- `WaterHeaterModel.step(dt_seconds, status_override)`. -/
def step (s : WaterHeaterState) (dt_seconds : ℚ)
    (status_override : Option String) : WaterHeaterState :=
  let dt_hours := dt_seconds / 3600
  let s :=
    if status_override = some "off" then
      { s with status := "off", element_on := false, power_kw := 0 }
    else
      let elem :=
        if s.water_temp_c < s.target_temp_c - DEAD_BAND_C then true
        else if s.target_temp_c ≤ s.water_temp_c then false
        else s.element_on
      { s with element_on := elem,
               status := if elem then "heating" else "standby",
               power_kw := if elem then ELEMENT_POWER_KW else 0 }
  let q_input := if s.element_on then s.power_kw * ELEMENT_EFFICIENCY else 0
  let delta_t := s.water_temp_c - AMBIENT_C
  let q_loss := LOSS_COEFF_KW_PER_K * max 0 delta_t
  let dT := (q_input - q_loss) * dt_hours / THERMAL_MASS_KWH_PER_K
  let new_temp := roundTo 2 (max AMBIENT_C (s.water_temp_c + dT))
  { s with heat_loss_rate_kw := roundTo 4 q_loss,
           water_temp_c := new_temp,
           energy_stored_kwh := roundTo 2 (THERMAL_MASS_KWH_PER_K * (new_temp - AMBIENT_C)) }

end WaterHeaterModel

-- ─── Washer/Dryer Model — src/ml/device_models.py ──────────────────────────

/-- Live computed state of the washer/dryer (`WasherState`). -/
structure WasherState where
  status : String := "off"
  power_kw : ℚ := 0
  cycle_phase : String := "idle"
  progress_pct : ℚ := 0
  time_remaining_min : ℚ := 0
  energy_this_cycle_kwh : ℚ := 0
deriving Repr, DecidableEq

/-- `WasherDryerModel`: state plus the private `_cycle_elapsed_min` and
`_running` fields. -/
structure WasherDryerModel where
  state : WasherState := {}
  cycle_elapsed_min : ℚ := 0
  running : Bool := false
deriving Repr, DecidableEq

namespace WasherDryerModel

/-- The fixed `CYCLE_PHASES` table: (phase name, duration minutes, power kW). -/
def CYCLE_PHASES : List (String × ℚ × ℚ) :=
  [("washing", 15, 1 / 2), ("rinsing", 10, 3 / 10), ("spinning", 10, 4 / 5),
   ("drying", 30, 2)]

/-- `TOTAL_CYCLE_MIN = sum(p[1] for p in CYCLE_PHASES)`. -/
def TOTAL_CYCLE_MIN : ℚ := (CYCLE_PHASES.map fun p => p.2.1).sum

/-- The phase-search loop of `WasherDryerModel.step`: walks `CYCLE_PHASES`
accumulating `elapsed`, returning the first phase whose cumulative window
contains `cycle_elapsed`, together with the phase-relative elapsed time;
`none` means the loop fell through (cycle complete). -/
def findPhase : List (String × ℚ × ℚ) → ℚ → ℚ → Option (String × ℚ × ℚ × ℚ)
  | [], _, _ => none
  | (phase_name, duration, power) :: rest, elapsed, cycle_elapsed =>
      if cycle_elapsed ≤ elapsed + duration then
        some (phase_name, duration, power, cycle_elapsed - elapsed)
      else findPhase rest (elapsed + duration) cycle_elapsed

/-- `WasherDryerModel.start_cycle()`. -/
def start_cycle (m : WasherDryerModel) : WasherDryerModel :=
  { m with running := true, cycle_elapsed_min := 0,
           state := { m.state with energy_this_cycle_kwh := 0, status := "washing" } }

/-- `WasherDryerModel.step(dt_seconds, trigger_start)`. -/
def step (m : WasherDryerModel) (dt_seconds : ℚ) (trigger_start : Bool) :
    WasherDryerModel :=
  let m := if trigger_start && !m.running then m.start_cycle else m
  if !m.running then
    { m with state := { m.state with
        status := "off"
        power_kw := 0
        cycle_phase := "idle"
        progress_pct := 0
        time_remaining_min := 0 } }
  else
    let dt_min := dt_seconds / 60
    let elapsedMin := m.cycle_elapsed_min + dt_min
    match findPhase CYCLE_PHASES 0 elapsedMin with
    | none =>
        { m with
          running := false
          cycle_elapsed_min := elapsedMin
          state := { m.state with
            status := "complete"
            power_kw := 0
            cycle_phase := "complete"
            progress_pct := 100
            time_remaining_min := 0 } }
    | some (phase_name, _, power, _) =>
        { m with
          cycle_elapsed_min := elapsedMin
          state := { m.state with
            cycle_phase := phase_name
            status := phase_name
            power_kw := power
            progress_pct := roundTo 1 (elapsedMin / TOTAL_CYCLE_MIN * 100)
            time_remaining_min := roundTo 1 (TOTAL_CYCLE_MIN - elapsedMin)
            energy_this_cycle_kwh :=
              m.state.energy_this_cycle_kwh + power * (dt_min / 60) } }

end WasherDryerModel

-- ─── Room Thermal Model — src/ml/thermal_model.py ──────────────────────────

/-- Computed thermal state of a room (`RoomThermalState`). -/
structure RoomThermalState where
  room_id : ℤ
  room_name : String
  current_temp_c : ℚ := 25
  temp_trend_c_per_hour : ℚ := 0
  humidity_pct : ℚ := 55
  comfort_status : String := "comfortable"
  heat_gain_kw : ℚ := 0
  cooling_output_kw : ℚ := 0
  minutes_to_setpoint : ℚ := 0
deriving Repr, DecidableEq

/-- `ROOM_PROPERTIES` / `DEFAULT_ROOM_PROPS` lookup by room name, returning
`(r_wall, c_thermal, window_area_m2, shgc)` (the `volume_m3` entry is unused
by the model and omitted). -/
def roomProps (name : String) : ℚ × ℚ × ℚ × ℚ :=
  if name = "Living Room" then (9 / 2, 9 / 20, 6, 1 / 4)
  else if name = "Bedroom" then (5, 7 / 20, 3, 1 / 5)
  else if name = "Kitchen" then (4, 3 / 10, 2, 1 / 4)
  else if name = "Garage" then (5 / 2, 3 / 5, 1 / 2, 3 / 20)
  else (4, 7 / 20, 3, 11 / 50)

/-- `RoomThermalModel`: per-room constants plus the mutable state and
`_prev_temp`. -/
structure RoomThermalModel where
  room_id : ℤ
  room_name : String
  r_wall : ℚ
  c_thermal : ℚ
  window_area : ℚ
  shgc : ℚ
  state : RoomThermalState
  prev_temp : ℚ
deriving Repr, DecidableEq

namespace RoomThermalModel

/-- `RoomThermalModel.__init__(room_id, room_name, initial_temp_c)`. -/
def init (room_id : ℤ) (room_name : String) (initial_temp_c : ℚ) : RoomThermalModel :=
  let props := roomProps room_name
  { room_id := room_id, room_name := room_name,
    r_wall := props.1, c_thermal := props.2.1,
    window_area := props.2.2.1, shgc := props.2.2.2,
    state := { room_id := room_id, room_name := room_name,
               current_temp_c := initial_temp_c },
    prev_temp := initial_temp_c }

/-- `RoomThermalModel.step(dt_seconds, outside_temp_c, solar_w_per_m2,
n_occupants, device_heat_kw, cooling_kw, comfort_min_c, comfort_max_c)`. -/
def step (m : RoomThermalModel) (dt_seconds outside_temp_c solar_w_per_m2
    n_occupants device_heat_kw cooling_kw comfort_min_c comfort_max_c : ℚ) :
    RoomThermalModel :=
  let dt_hours := dt_seconds / 3600
  let T := m.state.current_temp_c
  let q_wall := (outside_temp_c - T) / m.r_wall
  let q_solar := (solar_w_per_m2 / 1000) * m.window_area * m.shgc
  let q_occupancy := n_occupants * (1 / 10)
  let total_heat_gain := q_wall + q_solar + q_occupancy + device_heat_kw
  let net_heat := total_heat_gain - cooling_kw
  let dT := (net_heat * dt_hours) / m.c_thermal
  let new_temp := T + dT
  let trend := if 0 < dt_seconds then dT / dt_hours else 0
  let base_humidity : ℚ := if 35 < outside_temp_c then 60 else 50
  let ac_effect : ℚ := if 0 < cooling_kw then -5 else 0
  let comfort :=
    if new_temp < comfort_min_c - 2 ∨ comfort_max_c + 2 < new_temp then "out_of_band"
    else if comfort_min_c ≤ new_temp ∧ new_temp ≤ comfort_max_c then "comfortable"
    else if new_temp < comfort_min_c then "cool"
    else "warm"
  let mts :=
    if 0 < cooling_kw ∧ trend < 0 then
      let setpoint := (comfort_min_c + comfort_max_c) / 2
      if setpoint < new_temp ∧ trend ≠ 0 then
        roundTo 1 (|(new_temp - setpoint) / trend| * 60)
      else 0
    else 0
  { m with
    prev_temp := new_temp,
    state := { m.state with
      current_temp_c := roundTo 2 new_temp,
      temp_trend_c_per_hour := roundTo 2 trend,
      heat_gain_kw := roundTo 3 total_heat_gain,
      cooling_output_kw := roundTo 3 cooling_kw,
      humidity_pct := roundTo 1 (max 30 (min 80 (base_humidity + n_occupants * 2 + ac_effect))),
      comfort_status := comfort,
      minutes_to_setpoint := mts } }

end RoomThermalModel

/-- `compute_occupancy(hour_of_day, room_name)` from src/ml/thermal_model.py. -/
def compute_occupancy (hour_of_day : ℚ) (room_name : String) : ℚ :=
  if room_name = "Bedroom" then
    if 22 ≤ hour_of_day ∨ hour_of_day < 7 then 2
    else if 7 ≤ hour_of_day ∧ hour_of_day < 9 then 1
    else 0
  else if room_name = "Living Room" then
    if 7 ≤ hour_of_day ∧ hour_of_day < 9 then 2
    else if 9 ≤ hour_of_day ∧ hour_of_day < 16 then 1 / 2
    else if 16 ≤ hour_of_day ∧ hour_of_day < 23 then 3
    else 0
  else if room_name = "Kitchen" then
    if 6 ≤ hour_of_day ∧ hour_of_day < 9 then 3 / 2
    else if 11 ≤ hour_of_day ∧ hour_of_day < 14 then 3 / 2
    else if 17 ≤ hour_of_day ∧ hour_of_day < 21 then 2
    else 0
  else if room_name = "Garage" then
    if (7 ≤ hour_of_day ∧ hour_of_day < 8) ∨ (17 ≤ hour_of_day ∧ hour_of_day < 18) then 1
    else 0
  else 1 / 2

-- ─── Twin Orchestrator — src/ml/digital_twin.py ────────────────────────────

/-- `EnvironmentState` of src/ml/digital_twin.py. -/
structure EnvironmentState where
  outside_temp_c : ℚ := 36
  solar_irradiance_w_m2 : ℚ := 500
  wind_speed_ms : ℚ := 2
  humidity_pct : ℚ := 55
  grid_carbon_intensity : ℚ := 9 / 20
deriving Repr, DecidableEq

/-- `EnergyAccumulator` of src/ml/digital_twin.py. The private `_tariff`
(0.38) and `_emission_factor` (0.45) instance fields are constants (never
reassigned), inlined into `accumulate`. -/
structure EnergyAccumulator where
  total_energy_kwh : ℚ := 0
  cost_aed : ℚ := 0
  co2_kg : ℚ := 0
  peak_power_kw : ℚ := 0
deriving Repr, DecidableEq

/-- `EnergyAccumulator.accumulate(power_kw, dt_seconds)`. -/
def EnergyAccumulator.accumulate (a : EnergyAccumulator) (power_kw dt_seconds : ℚ) :
    EnergyAccumulator :=
  let dt_hours := dt_seconds / 3600
  let energy := power_kw * dt_hours
  let total := roundTo 4 (a.total_energy_kwh + energy)
  { total_energy_kwh := total
    cost_aed := roundTo 2 (total * (19 / 50))
    co2_kg := roundTo 2 (total * (9 / 20))
    peak_power_kw := roundTo 3 (max a.peak_power_kw power_kw) }

/-- The polymorphic device model held in `HomeTwinModel.device_models`,
tagged by the device type string kept in `device_type_map` ("ac",
"ev_charger", "water_heater", "washer_dryer"); the factory populates model
and type tag together, so the tag is carried by the variant. -/
inductive DeviceModel where
  | ac : ACModel → DeviceModel
  | ev : EVState → DeviceModel
  | wh : WaterHeaterState → DeviceModel
  | wd : WasherDryerModel → DeviceModel
deriving Repr, DecidableEq

/-- The `device_type_map` entry for a device model variant. -/
def DeviceModel.dtype : DeviceModel → String
  | .ac _ => "ac"
  | .ev _ => "ev_charger"
  | .wh _ => "water_heater"
  | .wd _ => "washer_dryer"

/-- `getattr(model.state, 'power_kw', 0.0)` — every variant's state has a
`power_kw` field. -/
def DeviceModel.power_kw : DeviceModel → ℚ
  | .ac m => m.state.power_kw
  | .ev s => s.power_kw
  | .wh s => s.power_kw
  | .wd m => m.state.power_kw

/-- The `status` field of a device model's state. -/
def DeviceModel.statusOf : DeviceModel → String
  | .ac m => m.state.status
  | .ev s => s.status
  | .wh s => s.status
  | .wd m => m.state.status

/-- Sanity invariant the factory establishes and every step preserves: each
device's reported electrical draw is non-negative, and a charger's
configured rate limit is non-negative (`max_rate_kw = 7.0` at construction). -/
def DeviceModel.powerOk : DeviceModel → Prop
  | .ac m => 0 ≤ m.state.power_kw
  | .ev s => 0 ≤ s.power_kw ∧ 0 ≤ s.max_charge_rate_kw
  | .wh s => 0 ≤ s.power_kw
  | .wd m => 0 ≤ m.state.power_kw

/-- Lookup in an insertion-ordered association list (Python dict access). -/
def lookupA {α : Type} : List (ℤ × α) → ℤ → Option α
  | [], _ => none
  | (k, v) :: rest, key => if k = key then some v else lookupA rest key

/-- In-place replacement of the value at a key (Python `dict[k] = v` on an
existing key: position preserved). -/
def updateAssoc {α : Type} (l : List (ℤ × α)) (key : ℤ) (v : α) : List (ℤ × α) :=
  l.map fun p => if p.1 = key then (key, v) else p

/-- `HomeTwinModel`: room models, device models, the device→room map, the
environment, the energy accumulator, preferences and step bookkeeping.
(`device_type_map` is carried by the `DeviceModel` variants; `home_name`,
`ev_departure_time` and `_start_time` play no part in the claims' code paths
and are omitted.) -/
structure HomeTwinModel where
  room_models : List (ℤ × RoomThermalModel) := []
  device_models : List (ℤ × DeviceModel) := []
  device_room_map : List (ℤ × ℤ) := []
  environment : EnvironmentState := {}
  energy : EnergyAccumulator := {}
  comfort_min_c : ℚ := 22
  comfort_max_c : ℚ := 26
  ev_target_soc : ℚ := 80
  step_count : ℤ := 0
  last_step_time : ℚ := 0
deriving Repr, DecidableEq

/-- The per-device computed result returned by `ingest_telemetry` /
`_step_device`: either the `{"device_id": ..., "error": "unknown device"}`
dict or `{"device_id": ..., "type": ..., "computed": asdict(model.state)}`. -/
inductive DeviceResult where
  | unknown_device : ℤ → DeviceResult
  | ac_result : ℤ → ACState → DeviceResult
  | ev_result : ℤ → EVState → DeviceResult
  | wh_result : ℤ → WaterHeaterState → DeviceResult
  | wd_result : ℤ → WasherState → DeviceResult
deriving Repr, DecidableEq

/-- Python `status or model.state.status` on an `Optional[str]`: `None` and
the empty string are falsy and fall back to the default. -/
def orElseStatus (status : Option String) (dflt : String) : String :=
  match status with
  | none => dflt
  | some x => if x = "" then dflt else x

namespace HomeTwinModel

/-- `HomeTwinModel._get_device_power(device_id)`. -/
def get_device_power (t : HomeTwinModel) (device_id : ℤ) : ℚ :=
  match lookupA t.device_models device_id with
  | none => 0
  | some m => m.power_kw

/-- Sum in `ingest_telemetry`:
`sum(self._get_device_power(did) for did in self.device_models)`. -/
def totalPower (t : HomeTwinModel) : ℚ :=
  (t.device_models.map fun p => t.get_device_power p.1).sum

/-- `HomeTwinModel._step_device(device_id, dt_seconds, power_kw, status)`:
steps the addressed device model and returns its computed result together
with the updated twin. -/
def step_device (t : HomeTwinModel) (device_id : ℤ) (dt_seconds power_kw : ℚ)
    (status : Option String) : DeviceResult × HomeTwinModel :=
  match lookupA t.device_models device_id with
  | none => (.unknown_device device_id, t)
  | some model =>
    let room_id := (lookupA t.device_room_map device_id).getD 0
    match model with
    | .ac m =>
        let room_temp :=
          match lookupA t.room_models room_id with
          | some rm => rm.state.current_temp_c
          | none => 25
        let m := m.step dt_seconds room_temp t.environment.outside_temp_c
          m.state.setpoint_c (orElseStatus status m.state.status)
        (.ac_result device_id m.state,
         { t with device_models := updateAssoc t.device_models device_id (.ac m) })
    | .ev s =>
        let st := orElseStatus status s.status
        let plugged := (st = "charging" ∨ st = "on" ∨ st = "standby") ∧ 1 / 100 < power_kw
        let s := EVChargerModel.step s dt_seconds (decide plugged) t.ev_target_soc none
        let s := if 1 / 100 < power_kw then { s with status := "charging" } else s
        (.ev_result device_id s,
         { t with device_models := updateAssoc t.device_models device_id (.ev s) })
    | .wh s =>
        let s := WaterHeaterModel.step s dt_seconds status
        (.wh_result device_id s,
         { t with device_models := updateAssoc t.device_models device_id (.wh s) })
    | .wd m =>
        let trigger := (status = some "on" ∨ 1 / 10 < power_kw) ∧ m.running = false
        let m := m.step dt_seconds (decide trigger)
        (.wd_result device_id m.state,
         { t with device_models := updateAssoc t.device_models device_id (.wd m) })

/-- Cooling aggregation in `_step_all_rooms`: total `get_cooling_kw()` of the
AC models located in `room_id`. -/
def roomCooling (devices : List (ℤ × DeviceModel)) (room_map : List (ℤ × ℤ))
    (room_id : ℤ) : ℚ :=
  (devices.map fun p =>
    if lookupA room_map p.1 = some room_id then
      match p.2 with
      | .ac m => m.state.cooling_output_kw
      | _ => 0
    else 0).sum

/-- Waste-heat aggregation in `_step_all_rooms`: 0.1 kW per water heater with
the element on, 15% of power for a running washer/dryer, in `room_id`. -/
def roomDeviceHeat (devices : List (ℤ × DeviceModel)) (room_map : List (ℤ × ℤ))
    (room_id : ℤ) : ℚ :=
  (devices.map fun p =>
    if lookupA room_map p.1 = some room_id then
      match p.2 with
      | .wh s => if s.element_on then 1 / 10 else 0
      | .wd m => if 0 < m.state.power_kw then m.state.power_kw * (3 / 20) else 0
      | _ => 0
    else 0).sum

/-- `HomeTwinModel._step_all_rooms(dt_seconds, hour_of_day)`. -/
def step_all_rooms (t : HomeTwinModel) (dt_seconds hour_of_day : ℚ) : HomeTwinModel :=
  { t with room_models := t.room_models.map fun p =>
      (p.1, p.2.step dt_seconds t.environment.outside_temp_c
        t.environment.solar_irradiance_w_m2
        (compute_occupancy hour_of_day p.2.room_name)
        (roomDeviceHeat t.device_models t.device_room_map p.1)
        (roomCooling t.device_models t.device_room_map p.1)
        t.comfort_min_c t.comfort_max_c) }

/-- `HomeTwinModel.ingest_telemetry(device_id, power_kw, temp_c, status, ts)`.

`now` is the `time.time()` reading, `current_hour` the UTC hour-of-day, and
`solar_now` the value `compute_solar_irradiance(current_hour)` (a sinusoid of
the hour, computed outside the rational embedding); the `ts` parameter of the
source is unused there and omitted. -/
def ingest_telemetry (t : HomeTwinModel) (now current_hour solar_now : ℚ)
    (device_id : ℤ) (power_kw : ℚ) (temp_c : Option ℚ) (status : Option String) :
    DeviceResult × HomeTwinModel :=
  let dt_seconds := min (now - t.last_step_time) 60
  let t := { t with last_step_time := now, step_count := t.step_count + 1 }
  let t :=
    match temp_c with
    | some tc =>
        if (lookupA t.device_models device_id).map DeviceModel.dtype = some "ac" then
          { t with environment := { t.environment with outside_temp_c := tc } }
        else t
    | none => t
  let t := { t with environment := { t.environment with solar_irradiance_w_m2 := solar_now } }
  let dres := t.step_device device_id dt_seconds power_kw status
  let t := dres.2
  let t := t.step_all_rooms dt_seconds current_hour
  let total_power := t.totalPower
  let t := { t with energy := t.energy.accumulate total_power dt_seconds }
  (dres.1, t)

end HomeTwinModel

-- ─── Helper lemmas ────────────────────────────────────────────────────────

theorem roundTo_mono {n : ℕ} {x y : ℚ} (h : x ≤ y) : roundTo n x ≤ roundTo n y := by
  unfold roundTo
  have hpow : (0 : ℚ) < 10 ^ n := by positivity
  have hr : round (x * 10 ^ n) ≤ round (y * 10 ^ n) := by
    rw [round_eq, round_eq]
    exact Int.floor_le_floor (by nlinarith)
  exact div_le_div_of_nonneg_right (by exact_mod_cast hr) hpow.le

/-- A grid point below `x` stays below the rounding of `x`. -/
theorem roundTo_grid_le {n : ℕ} {x : ℚ} {k : ℤ} (h : (k : ℚ) / 10 ^ n ≤ x) :
    (k : ℚ) / 10 ^ n ≤ roundTo n x := by
  unfold roundTo
  have hpow : (0 : ℚ) < 10 ^ n := by positivity
  have hk : (k : ℚ) ≤ x * 10 ^ n := by
    have := (div_le_iff₀ hpow).mp h
    linarith
  have hr : k ≤ round (x * 10 ^ n) := by
    have : round ((k : ℚ)) ≤ round (x * 10 ^ n) := by
      rw [round_eq, round_eq]
      exact Int.floor_le_floor (by linarith)
    simpa [round_intCast] using this
  exact div_le_div_of_nonneg_right (by exact_mod_cast hr) hpow.le

/-- A grid point above `x` stays above the rounding of `x`. -/
theorem roundTo_le_grid {n : ℕ} {x : ℚ} {k : ℤ} (h : x ≤ (k : ℚ) / 10 ^ n) :
    roundTo n x ≤ (k : ℚ) / 10 ^ n := by
  unfold roundTo
  have hpow : (0 : ℚ) < 10 ^ n := by positivity
  have hk : x * 10 ^ n ≤ (k : ℚ) := by
    have := (le_div_iff₀ hpow).mp h
    linarith
  have hr : round (x * 10 ^ n) ≤ k := by
    have : round (x * 10 ^ n) ≤ round ((k : ℚ)) := by
      rw [round_eq, round_eq]
      exact Int.floor_le_floor (by linarith)
    simpa [round_intCast] using this
  exact div_le_div_of_nonneg_right (by exact_mod_cast hr) hpow.le

theorem roundTo_nonneg {n : ℕ} {x : ℚ} (h : 0 ≤ x) : 0 ≤ roundTo n x := by
  have := @roundTo_grid_le n x 0 (by simpa using h)
  simpa using this

theorem roundTo_nonpos {n : ℕ} {x : ℚ} (h : x ≤ 0) : roundTo n x ≤ 0 := by
  have := @roundTo_le_grid n x 0 (by simpa using h)
  simpa using this


-- ─── Claim theorems ────────────────────────────────────────────────────────

/-- Field characterization of the "on" branch of `ACModel.step`: COP value. -/
theorem ac_step_on_cop (m : ACModel) (dt room outside setp : ℚ) :
    (m.step dt room outside setp "on").state.cop =
      max (3 / 2) (16 / 5 - (1 / 20) * max 0 (outside - 35)) := by
  simp [ACModel.step, ACModel.COP_NOMINAL]

/-- Field characterization of the "on" branch of `ACModel.step`: compressor
load. -/
theorem ac_step_on_load (m : ACModel) (dt room outside setp : ℚ) :
    (m.step dt room outside setp "on").state.compressor_load_pct =
      (if room - setp ≤ 0 then 30 else min 100 (30 + (room - setp) * 20)) := by
  simp only [ACModel.step, ACModel.MIN_COMPRESSOR_PCT]
  norm_num

/-- **C4.** For every climate-unit step with status "on": the coefficient of
performance equals `max(1.5, 3.2 − 0.05 × max(0, outside_temp − 35))`, so
`1.5 ≤ COP ≤ 3.2`; and the compressor load equals 30 when
`room_temp ≤ setpoint` and `min(100, 30 + 20 × (room_temp − setpoint))`
otherwise, so `30 ≤ compressor_load_pct ≤ 100`. -/
theorem ac_step_on_cop_and_load (m : ACModel) (dt room outside setp : ℚ) :
    ((m.step dt room outside setp "on").state.cop =
        max (3 / 2) (16 / 5 - (1 / 20) * max 0 (outside - 35)) ∧
      3 / 2 ≤ (m.step dt room outside setp "on").state.cop ∧
      (m.step dt room outside setp "on").state.cop ≤ 16 / 5) ∧
    ((m.step dt room outside setp "on").state.compressor_load_pct =
        (if room ≤ setp then 30 else min 100 (30 + 20 * (room - setp))) ∧
      30 ≤ (m.step dt room outside setp "on").state.compressor_load_pct ∧
      (m.step dt room outside setp "on").state.compressor_load_pct ≤ 100) := by
  have hmax : (0 : ℚ) ≤ max 0 (outside - 35) := le_max_left 0 _
  rw [ac_step_on_cop, ac_step_on_load]
  refine ⟨⟨rfl, le_max_left _ _, ?_⟩, ⟨?_, ?_, ?_⟩⟩
  · refine max_le (by norm_num) (by linarith)
  · by_cases h : room ≤ setp
    · rw [if_pos (by linarith : room - setp ≤ 0), if_pos h]
    · have h2 : ¬ (room - setp ≤ 0) := fun hc => h (by linarith)
      rw [if_neg h2, if_neg h]
      ring_nf
  · by_cases h : room - setp ≤ 0
    · rw [if_pos h]
    · have h1 : 0 < room - setp := lt_of_not_le h
      rw [if_neg h]
      exact le_min (by norm_num) (by nlinarith)
  · by_cases h : room - setp ≤ 0
    · rw [if_pos h]; norm_num
    · rw [if_neg h]
      exact min_le_left _ _

/-- The thermostat outcome of `WaterHeaterModel.step` when the override is
not "off": the hysteresis if-chain on the pre-step tank temperature. -/
theorem wh_step_element_on (s : WaterHeaterState) (dt : ℚ) (override : Option String)
    (hov : override ≠ some "off") :
    (WaterHeaterModel.step s dt override).element_on =
      (if s.water_temp_c < s.target_temp_c - 3 then true
       else if s.target_temp_c ≤ s.water_temp_c then false
       else s.element_on) := by
  simp [WaterHeaterModel.step, WaterHeaterModel.DEAD_BAND_C, hov]

/-- The "off"-override outcome of `WaterHeaterModel.step`. -/
theorem wh_step_off_override (s : WaterHeaterState) (dt : ℚ) :
    (WaterHeaterModel.step s dt (some "off")).element_on = false ∧
    (WaterHeaterModel.step s dt (some "off")).power_kw = 0 := by
  simp [WaterHeaterModel.step]

/-- **C5.** For every water-heater step without an "off" override, the heating
element turns on when tank temperature is strictly below `target − dead_band`,
turns off when tank temperature is at or above `target`, and otherwise keeps
its previous on/off state (hysteresis); an "off" status override forces the
element off and power to zero regardless of temperature. In particular, with
target 60 °C and dead-band 3 °C the element is on whenever temperature < 57 °C
and off once temperature ≥ 60 °C. -/
theorem waterheater_thermostat_hysteresis (s : WaterHeaterState) (dt : ℚ)
    (override : Option String) :
    (override ≠ some "off" →
      (s.water_temp_c < s.target_temp_c - 3 →
        (WaterHeaterModel.step s dt override).element_on = true) ∧
      (s.target_temp_c ≤ s.water_temp_c →
        (WaterHeaterModel.step s dt override).element_on = false) ∧
      (s.target_temp_c - 3 ≤ s.water_temp_c → s.water_temp_c < s.target_temp_c →
        (WaterHeaterModel.step s dt override).element_on = s.element_on)) ∧
    (override = some "off" →
      (WaterHeaterModel.step s dt override).element_on = false ∧
      (WaterHeaterModel.step s dt override).power_kw = 0) ∧
    (s.target_temp_c = 60 → override ≠ some "off" →
      (s.water_temp_c < 57 → (WaterHeaterModel.step s dt override).element_on = true) ∧
      (60 ≤ s.water_temp_c → (WaterHeaterModel.step s dt override).element_on = false)) := by
  refine ⟨?_, ?_, ?_⟩
  · intro hov
    rw [wh_step_element_on s dt override hov]
    refine ⟨?_, ?_, ?_⟩
    · intro h
      rw [if_pos h]
    · intro h
      rw [if_neg (by linarith), if_pos h]
    · intro h1 h2
      rw [if_neg (by linarith), if_neg (by linarith)]
  · intro hov
    subst hov
    exact wh_step_off_override s dt
  · intro ht hov
    rw [wh_step_element_on s dt override hov, ht]
    refine ⟨?_, ?_⟩
    · intro h
      rw [if_pos (by linarith : s.water_temp_c < 60 - 3)]
    · intro h
      rw [if_neg (by linarith), if_pos h]

/-- Witness for C5: the default tank (45 °C, target 60 °C) with no override
turns the element on. -/
theorem waterheater_thermostat_hysteresis_witness :
    (WaterHeaterModel.step {} 60 none).element_on = true :=
  ((waterheater_thermostat_hysteresis {} 60 none).1 (by simp)).1 (by norm_num)

/-- A charger state already at 100% state of charge. -/
def evFullBattery : EVState := { soc_pct := 100, time_to_target_minutes := 0 }

/-- **C3, counterexample.** A step that begins with state-of-charge at 100
(at or above 100) but below a target of 110 sets status "standby", not
"complete": the claim's parenthetical "(or at or above 100)" fails when the
target exceeds 100. -/
theorem ev_step_at_full_not_complete :
    100 ≤ evFullBattery.soc_pct ∧
    (EVChargerModel.step evFullBattery 60 true 110 none).status = "standby" ∧
    ¬ (EVChargerModel.step evFullBattery 60 true 110 none).status = "complete" := by
  have h : (EVChargerModel.step evFullBattery 60 true 110 none).status = "standby" := by
    norm_num [EVChargerModel.step, evFullBattery]
  exact ⟨by norm_num [evFullBattery], h, by rw [h]; decide⟩

/-- Monotonicity of the SOC update `min(100, round(soc + incr, 2))` when the
previous SOC lies on the 2-decimal grid. -/
theorem soc_update_bounds (soc incr : ℚ) (k : ℤ) (hk : soc = (k : ℚ) / 100)
    (hincr : 0 ≤ incr) (hsoc : soc ≤ 100) :
    soc ≤ min 100 (roundTo 2 (soc + incr)) ∧
    min 100 (roundTo 2 (soc + incr)) ≤ 100 := by
  subst hk
  refine ⟨le_min hsoc ?_, min_le_left _ _⟩
  have h2 : (k : ℚ) / 10 ^ 2 ≤ (k : ℚ) / 100 + incr := by
    norm_num
    linarith
  have h3 := roundTo_grid_le h2
  norm_num at h3
  exact h3

/-- **C3 (amended).** For every battery-charger step that ends up charging
(status "charging"), state-of-charge is non-decreasing and never exceeds 100
— for states whose state-of-charge lies on the 2-decimal grid the code
maintains, non-negative elapsed time, a non-negative rate limit and positive
battery capacity; and for every step that begins with state-of-charge at or
above the target, that step sets status to "complete" and power_kw to 0. (A
step beginning at or above 100 but below a target exceeding 100 instead
yields "standby"; the claim's "(or at or above 100)" clause holds only for
targets of at most 100.) -/
theorem ev_step_charging_soc_monotone (s : EVState) (dt target : ℚ) (plugged : Bool)
    (hgrid : ∃ k : ℤ, s.soc_pct = (k : ℚ) / 100)
    (hdt : 0 ≤ dt) (hrate : 0 ≤ s.max_charge_rate_kw)
    (hcap : 0 < s.battery_capacity_kwh) :
    ((EVChargerModel.step s dt plugged target none).status = "charging" →
      s.soc_pct ≤ (EVChargerModel.step s dt plugged target none).soc_pct ∧
      (EVChargerModel.step s dt plugged target none).soc_pct ≤ 100) ∧
    (target ≤ s.soc_pct →
      (EVChargerModel.step s dt plugged target none).status = "complete" ∧
      (EVChargerModel.step s dt plugged target none).power_kw = 0) := by
  obtain ⟨k, hk⟩ := hgrid
  constructor
  · intro hst
    by_cases h1 : plugged = false ∨ 100 ≤ s.soc_pct
    · exfalso
      rcases le_or_lt target s.soc_pct with h | h
      · simp [EVChargerModel.step, if_pos h1, if_pos h] at hst
      · simp [EVChargerModel.step, if_pos h1, if_neg (not_le.mpr h)] at hst
    · by_cases h2 : target ≤ s.soc_pct
      · exfalso
        simp [EVChargerModel.step, if_neg h1, if_pos h2] at hst
      · have h1' := h1
        push_neg at h1'
        simp only [EVChargerModel.step, if_neg h1, if_neg h2]
        have hrate0 : 0 ≤ (if s.soc_pct < EVChargerModel.CV_TAPER_START_SOC
            then s.max_charge_rate_kw
            else s.max_charge_rate_kw * (1 / 5 ⊔ (1 - 4 / 5 *
              ((s.soc_pct - EVChargerModel.CV_TAPER_START_SOC) /
                (100 - EVChargerModel.CV_TAPER_START_SOC))))) := by
          split
          · exact hrate
          · exact mul_nonneg hrate (le_trans (by norm_num) (le_max_left (1 / 5) _))
        refine soc_update_bounds s.soc_pct _ k hk ?_ (le_of_lt h1'.2)
        have hdt' : (0 : ℚ) ≤ dt / 3600 := by positivity
        have he : (0 : ℚ) ≤ EVChargerModel.CHARGE_EFFICIENCY := by
          norm_num [EVChargerModel.CHARGE_EFFICIENCY]
        have hnum := mul_nonneg (mul_nonneg hrate0 he) hdt'
        have hdivd := div_nonneg hnum hcap.le
        exact mul_nonneg hdivd (by norm_num)
  · intro htg
    by_cases h1 : plugged = false ∨ 100 ≤ s.soc_pct
    · constructor
      · simp [EVChargerModel.step, if_pos h1, if_pos htg]
      · simp [EVChargerModel.step, if_pos h1]
    · constructor <;> simp [EVChargerModel.step, if_neg h1, if_pos htg]

/-- Witness for C3 (amended): the default charger (45% SOC, 7 kW limit,
60 kWh) stepped 60 s while plugged towards an 80% target. -/
theorem ev_step_charging_soc_monotone_witness :
    ({} : EVState).soc_pct ≤ (EVChargerModel.step {} 60 true 80 none).soc_pct ∧
    (EVChargerModel.step {} 60 true 80 none).soc_pct ≤ 100 :=
  (ev_step_charging_soc_monotone {} 60 80 true
    ⟨4500, by show (45 : ℚ) = ((4500 : ℤ) : ℚ) / 100; norm_num⟩
    (by norm_num) (by show (0 : ℚ) ≤ 7; norm_num)
    (by show (0 : ℚ) < 60; norm_num)).1 (by decide)

/-- A charger state at its target with a stale positive time-to-target (as
reachable after the preference target is lowered mid-charge). -/
def evAtTarget : EVState := { soc_pct := 80, time_to_target_minutes := 5 }

/-- **C9, counterexample.** A step beginning with state-of-charge at the
target does not zero `time_to_target_minutes`: the early-return branches of
`EVChargerModel.step` never touch the field, so a stale value of 5 survives. -/
theorem ev_step_at_target_stale_ttm :
    80 ≤ evAtTarget.soc_pct ∧
    (EVChargerModel.step evAtTarget 60 true 80 none).time_to_target_minutes = 5 ∧
    ¬ (EVChargerModel.step evAtTarget 60 true 80 none).time_to_target_minutes = 0 := by
  have h : (EVChargerModel.step evAtTarget 60 true 80 none).time_to_target_minutes = 5 := by
    norm_num [EVChargerModel.step, evAtTarget]
  exact ⟨by norm_num [evAtTarget], h, by rw [h]; norm_num⟩

/-- **C9 (amended).** For every battery-charger step that begins with
state-of-charge at or above the target, the exposed `time_to_target_minutes`
after the step equals its value before the step (zero only when a previous
charging step had already zeroed it, e.g. the step that reached the target). -/
theorem ev_step_at_target_ttm_unchanged (s : EVState) (dt target : ℚ) (plugged : Bool)
    (h : target ≤ s.soc_pct) :
    (EVChargerModel.step s dt plugged target none).time_to_target_minutes =
      s.time_to_target_minutes := by
  by_cases h1 : plugged = false ∨ 100 ≤ s.soc_pct
  · simp [EVChargerModel.step, if_pos h1]
  · simp [EVChargerModel.step, if_neg h1, if_pos h]

/-- Witness for C9 (amended) at the concrete stale state. -/
theorem ev_step_at_target_ttm_unchanged_witness :
    (EVChargerModel.step evAtTarget 60 true 80 none).time_to_target_minutes =
      evAtTarget.time_to_target_minutes :=
  ev_step_at_target_ttm_unchanged evAtTarget 60 80 true (by norm_num [evAtTarget])

/-- `TOTAL_CYCLE_MIN` evaluates to 65 minutes. -/
theorem total_cycle_min_eq : WasherDryerModel.TOTAL_CYCLE_MIN = 65 := by
  norm_num [WasherDryerModel.TOTAL_CYCLE_MIN, WasherDryerModel.CYCLE_PHASES]

/-- Explicit evaluation of the phase-search loop over the fixed phase table:
the cumulative windows are (−∞,15], (15,25], (25,35], (35,65], and beyond 65
the loop falls through. -/
theorem findPhase_cycle (e : ℚ) :
    WasherDryerModel.findPhase WasherDryerModel.CYCLE_PHASES 0 e =
      (if e ≤ 15 then some ("washing", 15, 1 / 2, e - 0)
       else if e ≤ 25 then some ("rinsing", 10, 3 / 10, e - 15)
       else if e ≤ 35 then some ("spinning", 10, 4 / 5, e - 25)
       else if e ≤ 65 then some ("drying", 30, 2, e - 35)
       else none) := by
  simp only [WasherDryerModel.CYCLE_PHASES, WasherDryerModel.findPhase]
  norm_num

/-- `roundTo 1` cannot push a value at most 100 above 100. -/
theorem roundTo1_le_100 {x : ℚ} (h : x ≤ 100) : roundTo 1 x ≤ 100 := by
  have h1000 : x ≤ ((1000 : ℤ) : ℚ) / 10 ^ 1 := by
    norm_num
    exact h
  have := roundTo_le_grid h1000
  norm_num at this
  exact this

/-- **C6.** For the multi-phase appliance: a start trigger moves the machine
from idle into the first phase only if it is not already running (a trigger on
a running machine acts exactly like no trigger); phases advance in fixed order
("washing" → "rinsing" → "spinning" → "drying" → complete) as cumulative
elapsed time passes each phase's cumulative duration (15, 25, 35, 65 min);
the cumulative phase durations sum to exactly 65 minutes, and `progress_pct`
reaches exactly 100 at completion and never exceeds 100 on any step. -/
theorem washer_cycle_machine :
    ((WasherDryerModel.CYCLE_PHASES.map fun p => p.2.1).sum = 65 ∧
      WasherDryerModel.TOTAL_CYCLE_MIN = 65) ∧
    (∀ (m : WasherDryerModel) (dt : ℚ), m.running = true →
      WasherDryerModel.step m dt true = WasherDryerModel.step m dt false) ∧
    (∀ (m : WasherDryerModel) (dt : ℚ), m.running = false → 0 ≤ dt → dt ≤ 900 →
      (WasherDryerModel.step m dt true).state.cycle_phase = "washing" ∧
      (WasherDryerModel.step m dt true).running = true) ∧
    (∀ (m : WasherDryerModel) (dt : ℚ) (trig : Bool), m.running = true →
      (WasherDryerModel.step m dt trig).state.cycle_phase =
        (if m.cycle_elapsed_min + dt / 60 ≤ 15 then "washing"
         else if m.cycle_elapsed_min + dt / 60 ≤ 25 then "rinsing"
         else if m.cycle_elapsed_min + dt / 60 ≤ 35 then "spinning"
         else if m.cycle_elapsed_min + dt / 60 ≤ 65 then "drying"
         else "complete")) ∧
    (∀ (m : WasherDryerModel) (dt : ℚ) (trig : Bool),
      (WasherDryerModel.step m dt trig).state.progress_pct ≤ 100) ∧
    (∀ (m : WasherDryerModel) (dt : ℚ) (trig : Bool),
      (WasherDryerModel.step m dt trig).state.status = "complete" →
      (WasherDryerModel.step m dt trig).state.progress_pct = 100) := by
  refine ⟨⟨by norm_num [WasherDryerModel.CYCLE_PHASES], total_cycle_min_eq⟩,
    ?_, ?_, ?_, ?_, ?_⟩
  · intro m dt h
    simp [WasherDryerModel.step, h]
  · intro m dt h hdt0 hdt900
    have hd : dt / 60 ≤ 15 := by
      rw [div_le_iff₀ (by norm_num : (0:ℚ) < 60)]
      linarith
    simp [WasherDryerModel.step, WasherDryerModel.start_cycle, h, findPhase_cycle, hd]
  · intro m dt trig h
    simp only [WasherDryerModel.step, h]
    rw [findPhase_cycle]
    split_ifs <;> simp_all
  · intro m dt trig
    unfold WasherDryerModel.step
    generalize (if trig && !m.running then m.start_cycle else m) = m1
    by_cases hrun : m1.running = true
    · simp only [hrun, Bool.not_true, Bool.false_eq_true, findPhase_cycle,
        total_cycle_min_eq, if_false]
      split_ifs with g1 g2 g3 g4 <;> simp only
      · exact roundTo1_le_100 (by rw [div_mul_eq_mul_div,
          div_le_iff₀ (by norm_num : (0:ℚ) < 65)]; linarith)
      · exact roundTo1_le_100 (by rw [div_mul_eq_mul_div,
          div_le_iff₀ (by norm_num : (0:ℚ) < 65)]; linarith)
      · exact roundTo1_le_100 (by rw [div_mul_eq_mul_div,
          div_le_iff₀ (by norm_num : (0:ℚ) < 65)]; linarith)
      · exact roundTo1_le_100 (by rw [div_mul_eq_mul_div,
          div_le_iff₀ (by norm_num : (0:ℚ) < 65)]; linarith)
      · norm_num
    · have h0 : m1.running = false := by simpa using hrun
      simp only [h0, Bool.not_false, if_true]
      norm_num
  · intro m dt trig
    unfold WasherDryerModel.step
    generalize (if trig && !m.running then m.start_cycle else m) = m1
    by_cases hrun : m1.running = true
    · simp only [hrun, Bool.not_true, Bool.false_eq_true, findPhase_cycle, if_false]
      split_ifs <;> simp
    · have h0 : m1.running = false := by simpa using hrun
      simp only [h0, Bool.not_false, if_true]
      simp

/-- Witness for C6: a fresh idle machine triggered with a 60 s step enters
the "washing" phase and is running. -/
theorem washer_cycle_machine_witness :
    (WasherDryerModel.step {} 60 true).state.cycle_phase = "washing" ∧
    (WasherDryerModel.step {} 60 true).running = true :=
  washer_cycle_machine.2.2.1 {} 60 rfl (by norm_num) (by norm_num)

/-- The Living-Room thermal model at 25 °C, as the factory builds it. -/
def livingRoomCE : RoomThermalModel := RoomThermalModel.init 1 "Living Room" 25

/-- **C7, counterexample.** With dt = 3600 s, outdoor = room = 25 °C, no
solar/occupancy/device heat and cooling 0.001 kW, the cooling output strictly
exceeds the total heat gain (0), yet the *reported*
`temp_trend_c_per_hour` is 0, not negative: the unrounded trend −1/450 °C/h
rounds to 0 at 2 decimals. -/
theorem room_trend_not_negative_under_rounding :
    (25 - livingRoomCE.state.current_temp_c) / livingRoomCE.r_wall +
        0 / 1000 * livingRoomCE.window_area * livingRoomCE.shgc +
        0 * (1 / 10) + 0 < 1 / 1000 ∧
    (livingRoomCE.step 3600 25 0 0 0 (1 / 1000) 22 26).state.temp_trend_c_per_hour = 0 ∧
    ¬ ((livingRoomCE.step 3600 25 0 0 0 (1 / 1000) 22 26).state.temp_trend_c_per_hour < 0) := by
  have h : (livingRoomCE.step 3600 25 0 0 0 (1 / 1000) 22 26).state.temp_trend_c_per_hour
      = 0 := by
    norm_num [livingRoomCE, RoomThermalModel.init, roomProps, RoomThermalModel.step,
      roundTo, round_eq]
  refine ⟨by norm_num [livingRoomCE, RoomThermalModel.init, roomProps], h, ?_⟩
  rw [h]
  norm_num

/-- **C7 (amended).** For every room-thermal step with positive dt (and the
physically positive room constants): if the cooling output is strictly
greater than the total heat gain (wall + solar + occupancy + device heat),
the reported `temp_trend_c_per_hour` is non-positive (the unrounded trend is
strictly negative, but rounding to 2 decimals can report exactly 0); if
cooling is zero and the outdoor temperature is above the room temperature
(with non-negative solar, occupancy and device-heat inputs), the reported
trend is non-negative. -/
theorem room_step_trend_signs (m : RoomThermalModel)
    (dt outside solar occ devheat cooling cmin cmax : ℚ)
    (hdt : 0 < dt) (hr : 0 < m.r_wall) (hc : 0 < m.c_thermal)
    (hw : 0 ≤ m.window_area) (hs : 0 ≤ m.shgc) :
    ((outside - m.state.current_temp_c) / m.r_wall +
        solar / 1000 * m.window_area * m.shgc + occ * (1 / 10) + devheat < cooling →
      (m.step dt outside solar occ devheat cooling cmin cmax).state.temp_trend_c_per_hour
        ≤ 0) ∧
    (cooling = 0 → m.state.current_temp_c < outside → 0 ≤ solar → 0 ≤ occ → 0 ≤ devheat →
      0 ≤ (m.step dt outside solar occ devheat cooling
            cmin cmax).state.temp_trend_c_per_hour) := by
  constructor
  · intro hcool
    simp only [RoomThermalModel.step, if_pos hdt]
    apply roundTo_nonpos
    have hA : (0 : ℚ) < dt / 3600 := by positivity
    have hnet : (outside - m.state.current_temp_c) / m.r_wall +
        solar / 1000 * m.window_area * m.shgc + occ * (1 / 10) + devheat - cooling < 0 := by
      linarith
    have h1 := mul_neg_of_neg_of_pos hnet hA
    have h2 := div_neg_of_neg_of_pos h1 hc
    have h3 := div_neg_of_neg_of_pos h2 hA
    exact le_of_lt h3
  · intro hcool0 hT hsolar hocc hdev
    subst hcool0
    simp only [RoomThermalModel.step, if_pos hdt]
    apply roundTo_nonneg
    have hA : (0 : ℚ) < dt / 3600 := by positivity
    have hwall : 0 < (outside - m.state.current_temp_c) / m.r_wall :=
      div_pos (by linarith) hr
    have hq : 0 ≤ solar / 1000 * m.window_area * m.shgc := by positivity
    have hnet : 0 < (outside - m.state.current_temp_c) / m.r_wall +
        solar / 1000 * m.window_area * m.shgc + occ * (1 / 10) + devheat - 0 := by
      have h0 : 0 ≤ occ * (1 / 10) := by positivity
      linarith
    have h1 := mul_pos hnet hA
    have h2 := div_pos h1 hc
    have h3 := div_pos h2 hA
    exact le_of_lt h3

/-- Witness for C7 (amended): the Living-Room model at 25 °C under a 36 °C
outdoor temperature with no cooling reports a non-negative trend. -/
theorem room_step_trend_signs_witness :
    0 ≤ (livingRoomCE.step 3600 36 0 0 0 0 22 26).state.temp_trend_c_per_hour :=
  (room_step_trend_signs livingRoomCE 3600 36 0 0 0 0 22 26 (by norm_num)
      (by norm_num [livingRoomCE, RoomThermalModel.init, roomProps])
      (by norm_num [livingRoomCE, RoomThermalModel.init, roomProps])
      (by norm_num [livingRoomCE, RoomThermalModel.init, roomProps])
      (by norm_num [livingRoomCE, RoomThermalModel.init, roomProps])).2
    rfl (by norm_num [livingRoomCE, RoomThermalModel.init]) (by norm_num)
    (by norm_num) (by norm_num)

/-- A small concrete twin: one Living-Room thermal model and one AC device
(id 1) located in it. -/
def twinCE : HomeTwinModel :=
  { room_models := [(1, RoomThermalModel.init 1 "Living Room" 24)]
    device_models := [(1, DeviceModel.ac {})]
    device_room_map := [(1, 1)] }

/-- **C1, counterexample.** Ingesting a reading for unknown device id 99
returns the tagged "unknown device" result, but the twin's state is *not*
unchanged: the step counter has advanced (the unknown-device check sits in
`_step_device`, after `ingest_telemetry` has already bumped the counter, and
before it steps every room and accumulates energy regardless). -/
theorem ingest_unknown_device_mutates_counter :
    (twinCE.ingest_telemetry 60 12 500 99 0 none none).1 =
      DeviceResult.unknown_device 99 ∧
    ¬ ((twinCE.ingest_telemetry 60 12 500 99 0 none none).2.step_count =
        twinCE.step_count) := by
  constructor
  · simp [HomeTwinModel.ingest_telemetry, HomeTwinModel.step_device, twinCE, lookupA]
  · simp [HomeTwinModel.ingest_telemetry, HomeTwinModel.step_device,
      HomeTwinModel.step_all_rooms, twinCE, lookupA]

/-- **C1 (amended).** For every call to ingest with a device_id not present
in the twin's device map, the call returns the explicit "unknown device"
tagged result, steps no device model (the device map and the outdoor
temperature are unchanged) — but the ingestion still increments the step
counter, overwrites the solar irradiance, steps every room's thermal model,
and runs the energy accumulator. -/
theorem ingest_unknown_device (t : HomeTwinModel) (now hour solar : ℚ) (id : ℤ)
    (power : ℚ) (temp : Option ℚ) (status : Option String)
    (h : lookupA t.device_models id = none) :
    (t.ingest_telemetry now hour solar id power temp status).1 =
      DeviceResult.unknown_device id ∧
    (t.ingest_telemetry now hour solar id power temp status).2.device_models =
      t.device_models ∧
    (t.ingest_telemetry now hour solar id power temp status).2.environment.outside_temp_c =
      t.environment.outside_temp_c ∧
    (t.ingest_telemetry now hour solar id power temp status).2.step_count =
      t.step_count + 1 := by
  cases temp <;>
    simp [HomeTwinModel.ingest_telemetry, HomeTwinModel.step_device,
      HomeTwinModel.step_all_rooms, h]

/-- Witness for C1 (amended) at the concrete twin, unknown id 99. -/
theorem ingest_unknown_device_witness :
    (twinCE.ingest_telemetry 60 12 500 99 0 none none).1 =
      DeviceResult.unknown_device 99 ∧
    (twinCE.ingest_telemetry 60 12 500 99 0 none none).2.device_models =
      twinCE.device_models ∧
    (twinCE.ingest_telemetry 60 12 500 99 0 none none).2.environment.outside_temp_c =
      twinCE.environment.outside_temp_c ∧
    (twinCE.ingest_telemetry 60 12 500 99 0 none none).2.step_count =
      twinCE.step_count + 1 :=
  ingest_unknown_device twinCE 60 12 500 99 0 none none (by decide)


/-- Looking up the key just replaced returns the new value (when the key was
present). -/
theorem lookupA_updateAssoc {α : Type} (l : List (ℤ × α)) (k : ℤ) (v w : α)
    (h : lookupA l k = some w) : lookupA (updateAssoc l k v) k = some v := by
  induction l with
  | nil => simp [lookupA] at h
  | cons p rest ih =>
      obtain ⟨a, b⟩ := p
      simp only [updateAssoc, List.map_cons]
      by_cases hk : a = k
      · rw [if_pos (show (a, b).1 = k from hk)]
        simp [lookupA]
      · rw [if_neg (show ¬ (a, b).1 = k from hk)]
        simp only [lookupA, if_neg hk] at h ⊢
        exact ih h

/-- **C10.** For every ingestion addressed to the EV charger whose reported
power_kw is greater than 0.01, the charger's status after the ingestion is
"charging": the orchestrator overwrites the status computed by the charger
model, including "complete" when state-of-charge has already reached the
target or 100. -/
theorem ingest_ev_power_overrides_status (t : HomeTwinModel) (now hour solar : ℚ)
    (id : ℤ) (power : ℚ) (temp : Option ℚ) (status : Option String) (s : EVState)
    (hdev : lookupA t.device_models id = some (DeviceModel.ev s))
    (hp : 1 / 100 < power) :
    (lookupA (t.ingest_telemetry now hour solar id power temp status).2.device_models
        id).map DeviceModel.statusOf = some "charging" := by
  have key : ∀ w, lookupA (updateAssoc t.device_models id (DeviceModel.ev w)) id =
      some (DeviceModel.ev w) :=
    fun w => lookupA_updateAssoc t.device_models id (DeviceModel.ev w) _ hdev
  cases temp <;>
    (simp [HomeTwinModel.ingest_telemetry, HomeTwinModel.step_device,
       HomeTwinModel.step_all_rooms, hdev, DeviceModel.dtype, key,
       DeviceModel.statusOf]
     rw [if_pos (show (100 : ℚ)⁻¹ < power by rwa [← one_div])])

/-- A concrete twin holding one EV charger (id 2, already at 100% SOC) in a
garage room. -/
def twinEV : HomeTwinModel :=
  { room_models := [(1, RoomThermalModel.init 1 "Garage" 30)]
    device_models := [(2, DeviceModel.ev { soc_pct := 100 })]
    device_room_map := [(2, 1)] }

/-- Witness for C10: a 5 kW reading for the full battery (which the model
itself would report "complete") ends the ingestion with status "charging". -/
theorem ingest_ev_power_overrides_status_witness :
    (lookupA (twinEV.ingest_telemetry 60 12 500 2 5 none none).2.device_models
        2).map DeviceModel.statusOf = some "charging" :=
  ingest_ev_power_overrides_status twinEV 60 12 500 2 5 none none
    { soc_pct := 100 } (by decide) (by norm_num)

/-- Lookup through a key-preserving value map over an association list. -/
theorem lookupA_mapVal {α β : Type} (f : ℤ → α → β) (l : List (ℤ × α)) (k : ℤ) :
    lookupA (l.map fun p => (p.1, f p.1 p.2)) k = (lookupA l k).map (f k) := by
  induction l with
  | nil => rfl
  | cons p rest ih =>
      obtain ⟨a, b⟩ := p
      by_cases hk : a = k
      · subst hk
        simp [lookupA]
      · simp [lookupA, hk, ih]

/-- Lookup of one room in the result of `_step_all_rooms`: that room stepped
with the aggregated per-room inputs. -/
theorem step_all_rooms_lookup (t : HomeTwinModel) (dt hour : ℚ) (r : ℤ)
    (rm : RoomThermalModel) (h : lookupA t.room_models r = some rm) :
    lookupA (t.step_all_rooms dt hour).room_models r =
      some (rm.step dt t.environment.outside_temp_c t.environment.solar_irradiance_w_m2
        (compute_occupancy hour rm.room_name)
        (HomeTwinModel.roomDeviceHeat t.device_models t.device_room_map r)
        (HomeTwinModel.roomCooling t.device_models t.device_room_map r)
        t.comfort_min_c t.comfort_max_c) := by
  simp only [HomeTwinModel.step_all_rooms]
  rw [lookupA_mapVal (fun rid rmv =>
    rmv.step dt t.environment.outside_temp_c t.environment.solar_irradiance_w_m2
      (compute_occupancy hour rmv.room_name)
      (HomeTwinModel.roomDeviceHeat t.device_models t.device_room_map rid)
      (HomeTwinModel.roomCooling t.device_models t.device_room_map rid)
      t.comfort_min_c t.comfort_max_c) t.room_models r, h]
  rfl


/-- `updateAssoc` at a key no entry carries is the identity. -/
theorem updateAssoc_eq_of_not_mem {α : Type} (l : List (ℤ × α)) (k : ℤ) (v : α)
    (h : ∀ p ∈ l, p.1 ≠ k) : updateAssoc l k v = l := by
  induction l with
  | nil => rfl
  | cons p rest ih =>
      have hrest := ih fun q hq => h q (List.mem_cons_of_mem _ hq)
      calc updateAssoc (p :: rest) k v
          = (if p.1 = k then (k, v) else p) :: updateAssoc rest k v := rfl
        _ = p :: rest := by
            rw [if_neg (h p (List.mem_cons_self _ _)), hrest]

/-- Replacing the AC at key `d` (located in room `r`) changes the room's
cooling aggregate by exactly swapping that AC's old cooling output for its
new one — device ids are unique in the map, as the factory keys device
models by id. -/
theorem roomCooling_updateAssoc (l : List (ℤ × DeviceModel))
    (room_map : List (ℤ × ℤ)) (d r : ℤ) (m m' : ACModel)
    (hnodup : (l.map Prod.fst).Nodup)
    (hdev : lookupA l d = some (DeviceModel.ac m))
    (hmap : lookupA room_map d = some r) :
    HomeTwinModel.roomCooling (updateAssoc l d (DeviceModel.ac m')) room_map r =
      HomeTwinModel.roomCooling l room_map r
        - m.state.cooling_output_kw + m'.state.cooling_output_kw := by
  induction l with
  | nil => simp [lookupA] at hdev
  | cons p rest ih =>
      obtain ⟨a, b⟩ := p
      simp only [List.map_cons, List.nodup_cons] at hnodup
      by_cases hd : a = d
      · subst hd
        have hb : b = DeviceModel.ac m := by simpa [lookupA] using hdev
        subst hb
        have hrest : updateAssoc rest a (DeviceModel.ac m') = rest := by
          refine updateAssoc_eq_of_not_mem rest a _ fun q hq hq1 => ?_
          exact hnodup.1 (hq1 ▸ List.mem_map_of_mem Prod.fst hq)
        have hupd : updateAssoc ((a, DeviceModel.ac m) :: rest) a (DeviceModel.ac m') =
            (a, DeviceModel.ac m') :: rest := by
          calc updateAssoc ((a, DeviceModel.ac m) :: rest) a (DeviceModel.ac m')
              = (if a = a then (a, DeviceModel.ac m') else (a, DeviceModel.ac m)) ::
                  updateAssoc rest a (DeviceModel.ac m') := rfl
            _ = (a, DeviceModel.ac m') :: rest := by rw [if_pos rfl, hrest]
        rw [hupd]
        simp only [HomeTwinModel.roomCooling, List.map_cons, List.sum_cons, hmap]
        simp
        ring
      · have hdev2 : lookupA rest d = some (DeviceModel.ac m) := by
          simpa [lookupA, hd] using hdev
        have hupd : updateAssoc ((a, b) :: rest) d (DeviceModel.ac m') =
            (a, b) :: updateAssoc rest d (DeviceModel.ac m') := by
          calc updateAssoc ((a, b) :: rest) d (DeviceModel.ac m')
              = (if a = d then (d, DeviceModel.ac m') else (a, b)) ::
                  updateAssoc rest d (DeviceModel.ac m') := rfl
            _ = _ := by rw [if_neg hd]
        rw [hupd]
        have ih2 := ih hnodup.2 hdev2
        simp only [HomeTwinModel.roomCooling, List.map_cons, List.sum_cons] at ih2 ⊢
        rw [ih2]
        ring

/-- **C8.** Within a single ingestion, the target device's model is stepped
before any room thermal model is stepped: the climate unit addressed by the
reading consumes its room's *pre-step* temperature
(`rm.state.current_temp_c` of the twin as it was before the call), and the
room is then stepped with the cooling and waste heat aggregated over the
*updated* device map — i.e. the cooling output just computed by the climate
units located in it. The third conjunct makes the dataflow explicit: with
unique device ids (as the factory keys models by id), the cooling consumed by
the room equals the pre-ingestion aggregate with the addressed unit's old
cooling output replaced by the freshly computed one. -/
theorem ingest_ac_device_before_rooms (t : HomeTwinModel) (now hour solar : ℚ)
    (d r : ℤ) (power : ℚ) (temp : Option ℚ) (status : Option String)
    (m : ACModel) (rm : RoomThermalModel)
    (hdev : lookupA t.device_models d = some (DeviceModel.ac m))
    (hmap : lookupA t.device_room_map d = some r)
    (hroom : lookupA t.room_models r = some rm) :
    lookupA (t.ingest_telemetry now hour solar d power temp status).2.device_models d =
      some (DeviceModel.ac (m.step (min (now - t.last_step_time) 60)
        rm.state.current_temp_c
        (match temp with | some tc => tc | none => t.environment.outside_temp_c)
        m.state.setpoint_c (orElseStatus status m.state.status))) ∧
    lookupA (t.ingest_telemetry now hour solar d power temp status).2.room_models r =
      some (rm.step (min (now - t.last_step_time) 60)
        (match temp with | some tc => tc | none => t.environment.outside_temp_c)
        solar (compute_occupancy hour rm.room_name)
        (HomeTwinModel.roomDeviceHeat
          (updateAssoc t.device_models d (DeviceModel.ac (m.step
            (min (now - t.last_step_time) 60) rm.state.current_temp_c
            (match temp with | some tc => tc | none => t.environment.outside_temp_c)
            m.state.setpoint_c (orElseStatus status m.state.status))))
          t.device_room_map r)
        (HomeTwinModel.roomCooling
          (updateAssoc t.device_models d (DeviceModel.ac (m.step
            (min (now - t.last_step_time) 60) rm.state.current_temp_c
            (match temp with | some tc => tc | none => t.environment.outside_temp_c)
            m.state.setpoint_c (orElseStatus status m.state.status))))
          t.device_room_map r)
        t.comfort_min_c t.comfort_max_c) ∧
    ((t.device_models.map Prod.fst).Nodup →
      HomeTwinModel.roomCooling
        (updateAssoc t.device_models d (DeviceModel.ac (m.step
          (min (now - t.last_step_time) 60) rm.state.current_temp_c
          (match temp with | some tc => tc | none => t.environment.outside_temp_c)
          m.state.setpoint_c (orElseStatus status m.state.status))))
        t.device_room_map r =
      HomeTwinModel.roomCooling t.device_models t.device_room_map r
        - m.state.cooling_output_kw
        + (m.step (min (now - t.last_step_time) 60) rm.state.current_temp_c
            (match temp with | some tc => tc | none => t.environment.outside_temp_c)
            m.state.setpoint_c (orElseStatus status m.state.status)).state.cooling_output_kw) := by
  have key : ∀ w, lookupA (updateAssoc t.device_models d (DeviceModel.ac w)) d =
      some (DeviceModel.ac w) :=
    fun w => lookupA_updateAssoc t.device_models d (DeviceModel.ac w) _ hdev
  cases temp <;> refine ⟨?_, ?_, ?_⟩
  · simp [HomeTwinModel.ingest_telemetry, HomeTwinModel.step_device,
      HomeTwinModel.step_all_rooms, hdev, hmap, hroom, DeviceModel.dtype, key]
  · simp only [HomeTwinModel.ingest_telemetry, HomeTwinModel.step_device, hdev, hmap,
      hroom, DeviceModel.dtype, Option.getD_some, Option.map_some]
    rw [step_all_rooms_lookup _ _ _ _ rm (by simpa using hroom)]
  · intro hnodup
    exact roomCooling_updateAssoc t.device_models t.device_room_map d r m _
      hnodup hdev hmap
  · simp only [HomeTwinModel.ingest_telemetry, HomeTwinModel.step_device]
    rw [if_pos (show (lookupA t.device_models d).map DeviceModel.dtype = some "ac" by
      rw [hdev]; rfl)]
    simp [hdev, hmap, hroom, HomeTwinModel.step_all_rooms, key]
  · simp only [HomeTwinModel.ingest_telemetry, HomeTwinModel.step_device]
    rw [if_pos (show (lookupA t.device_models d).map DeviceModel.dtype = some "ac" by
      rw [hdev]; rfl)]
    simp only [hdev, hmap, Option.getD_some, hroom]
    rw [step_all_rooms_lookup _ _ _ _ rm (by simpa using hroom)]
  · intro hnodup
    exact roomCooling_updateAssoc t.device_models t.device_room_map d r m _
      hnodup hdev hmap

/-- Witness for C8 at the concrete one-AC twin: the AC (defaults: setpoint
24 °C, status "on") is stepped with the room's pre-ingestion temperature
(24 °C, from the room model as constructed) and the twin's 36 °C outdoor
default; and the cooling aggregate the room consumes swaps the AC's old
cooling output for the freshly computed one. -/
theorem ingest_ac_device_before_rooms_witness :
    (lookupA (twinCE.ingest_telemetry 60 12 500 1 (9 / 10) none none).2.device_models 1 =
      some (DeviceModel.ac (ACModel.step {} (min (60 - twinCE.last_step_time) 60)
        (RoomThermalModel.init 1 "Living Room" 24).state.current_temp_c
        twinCE.environment.outside_temp_c
        ({} : ACModel).state.setpoint_c
        (orElseStatus none ({} : ACModel).state.status)))) ∧
    HomeTwinModel.roomCooling
        (updateAssoc twinCE.device_models 1 (DeviceModel.ac (ACModel.step {}
          (min (60 - twinCE.last_step_time) 60)
          (RoomThermalModel.init 1 "Living Room" 24).state.current_temp_c
          twinCE.environment.outside_temp_c
          ({} : ACModel).state.setpoint_c
          (orElseStatus none ({} : ACModel).state.status))))
        twinCE.device_room_map 1 =
      HomeTwinModel.roomCooling twinCE.device_models twinCE.device_room_map 1
        - ({} : ACModel).state.cooling_output_kw
        + (ACModel.step {} (min (60 - twinCE.last_step_time) 60)
            (RoomThermalModel.init 1 "Living Room" 24).state.current_temp_c
            twinCE.environment.outside_temp_c
            ({} : ACModel).state.setpoint_c
            (orElseStatus none ({} : ACModel).state.status)).state.cooling_output_kw :=
  ⟨(ingest_ac_device_before_rooms twinCE 60 12 500 1 1 (9 / 10) none none {}
      (RoomThermalModel.init 1 "Living Room" 24) (by simp [twinCE, lookupA])
      (by simp [twinCE, lookupA]) (by simp [twinCE, lookupA])).1,
   (ingest_ac_device_before_rooms twinCE 60 12 500 1 1 (9 / 10) none none {}
      (RoomThermalModel.init 1 "Living Room" 24) (by simp [twinCE, lookupA])
      (by simp [twinCE, lookupA]) (by simp [twinCE, lookupA])).2.2
    (by simp [twinCE])⟩

/-- The "on"-branch electrical-draw formula of `ACModel.step`. -/
theorem ac_step_on_power (m : ACModel) (dt room outside setp : ℚ) :
    (m.step dt room outside setp "on").state.power_kw =
      roundTo 3 (ACModel.RATED_POWER_KW *
        ((if room - setp ≤ 0 then ACModel.MIN_COMPRESSOR_PCT
          else min 100 (ACModel.MIN_COMPRESSOR_PCT + (room - setp) * 20)) / 100)) := by
  simp [ACModel.step]

/-- An AC step never reports negative electrical draw. -/
theorem ac_step_power_nonneg (m : ACModel) (dt room outside setp : ℚ) (st : String) :
    0 ≤ (m.step dt room outside setp st).state.power_kw := by
  by_cases hst : st = "on"
  · subst hst
    rw [ac_step_on_power]
    apply roundTo_nonneg
    have hpct : (0 : ℚ) ≤ (if room - setp ≤ 0 then ACModel.MIN_COMPRESSOR_PCT
        else min 100 (ACModel.MIN_COMPRESSOR_PCT + (room - setp) * 20)) := by
      split
      · norm_num [ACModel.MIN_COMPRESSOR_PCT]
      · rename_i h
        have h1 : 0 < room - setp := lt_of_not_le h
        exact le_min (by norm_num) (by norm_num [ACModel.MIN_COMPRESSOR_PCT]; nlinarith)
    have hrp : (0 : ℚ) ≤ ACModel.RATED_POWER_KW := by norm_num [ACModel.RATED_POWER_KW]
    exact mul_nonneg hrp (by positivity)
  · simp [ACModel.step, hst]

/-- An EV-charger step never reports negative draw, and never changes the
configured rate limit. -/
theorem ev_step_power (s : EVState) (dt target : ℚ) (p : Bool)
    (hrate : 0 ≤ s.max_charge_rate_kw) :
    0 ≤ (EVChargerModel.step s dt p target none).power_kw ∧
    (EVChargerModel.step s dt p target none).max_charge_rate_kw =
      s.max_charge_rate_kw := by
  unfold EVChargerModel.step
  by_cases h1 : p = false ∨ 100 ≤ s.soc_pct
  · rw [if_pos h1]
    exact ⟨le_refl 0, rfl⟩
  · rw [if_neg h1]
    by_cases h2 : target ≤ s.soc_pct
    · rw [if_pos h2]
      exact ⟨le_refl 0, rfl⟩
    · rw [if_neg h2]
      refine ⟨?_, rfl⟩
      apply roundTo_nonneg
      split
      · exact hrate
      · exact mul_nonneg hrate (le_trans (by norm_num) (le_max_left (1 / 5) _))

/-- A water-heater step never reports negative draw. -/
theorem wh_step_power_nonneg (s : WaterHeaterState) (dt : ℚ) (ov : Option String) :
    0 ≤ (WaterHeaterModel.step s dt ov).power_kw := by
  unfold WaterHeaterModel.step
  by_cases hov : ov = some "off"
  · rw [if_pos hov]
  · rw [if_neg hov]
    split_ifs <;> try norm_num [WaterHeaterModel.ELEMENT_POWER_KW]
    cases hb : s.element_on <;> norm_num [hb, WaterHeaterModel.ELEMENT_POWER_KW]

/-- A washer/dryer step never reports negative draw. -/
theorem wd_step_power_nonneg (m : WasherDryerModel) (dt : ℚ) (trig : Bool) :
    0 ≤ (WasherDryerModel.step m dt trig).state.power_kw := by
  unfold WasherDryerModel.step
  generalize (if trig && !m.running then m.start_cycle else m) = m1
  by_cases hrun : m1.running = true
  · simp only [hrun, Bool.not_true, Bool.false_eq_true, findPhase_cycle, if_false]
    split_ifs <;> norm_num
  · have h0 : m1.running = false := by simpa using hrun
    simp only [h0, Bool.not_false, if_true]
    norm_num

/-- A successful association-list lookup yields a member of the list. -/
theorem lookupA_mem {α : Type} (l : List (ℤ × α)) (k : ℤ) (v : α)
    (h : lookupA l k = some v) : (k, v) ∈ l := by
  induction l with
  | nil => simp [lookupA] at h
  | cons p rest ih =>
      obtain ⟨a, b⟩ := p
      by_cases hk : a = k
      · subst hk
        have hbv : b = v := by simpa [lookupA] using h
        subst hbv
        exact List.mem_cons_self _ _
      · simp only [lookupA, if_neg hk] at h
        exact List.mem_cons_of_mem _ (ih h)

/-- `updateAssoc` preserves a value property that the new value satisfies. -/
theorem updateAssoc_forall {α : Type} (P : α → Prop) (l : List (ℤ × α)) (k : ℤ)
    (v : α) (hl : ∀ p ∈ l, P p.2) (hv : P v) :
    ∀ p ∈ updateAssoc l k v, P p.2 := by
  intro p hp
  simp only [updateAssoc, List.mem_map] at hp
  obtain ⟨q, hq, rfl⟩ := hp
  by_cases hk : q.1 = k
  · simpa [hk] using hv
  · simpa [hk] using hl q hq

/-- If every device in the map satisfies `powerOk`, the summed instantaneous
power is non-negative. -/
theorem totalPower_nonneg (t : HomeTwinModel)
    (h : ∀ p ∈ t.device_models, p.2.powerOk) : 0 ≤ t.totalPower := by
  unfold HomeTwinModel.totalPower
  apply List.sum_nonneg
  intro x hx
  simp only [List.mem_map] at hx
  obtain ⟨p, hp, rfl⟩ := hx
  unfold HomeTwinModel.get_device_power
  cases hl : lookupA t.device_models p.1 with
  | none => norm_num
  | some mdl =>
      have hm := h _ (lookupA_mem _ _ _ hl)
      cases mdl with
      | ac m => simpa [DeviceModel.power_kw, DeviceModel.powerOk] using hm
      | ev s =>
          simp only [DeviceModel.powerOk] at hm
          simpa [DeviceModel.power_kw] using hm.1
      | wh s => simpa [DeviceModel.power_kw, DeviceModel.powerOk] using hm
      | wd m => simpa [DeviceModel.power_kw, DeviceModel.powerOk] using hm

/-- `_step_device` never touches the energy accumulator. -/
theorem step_device_energy (t : HomeTwinModel) (id : ℤ) (dt power : ℚ)
    (st : Option String) : (t.step_device id dt power st).2.energy = t.energy := by
  unfold HomeTwinModel.step_device
  cases hl : lookupA t.device_models id with
  | none => rfl
  | some mdl => cases mdl <;> rfl

/-- `_step_device` preserves the `powerOk` invariant of the device map. -/
theorem step_device_powerOk (t : HomeTwinModel) (id : ℤ) (dt power : ℚ)
    (st : Option String) (h : ∀ p ∈ t.device_models, p.2.powerOk) :
    ∀ p ∈ (t.step_device id dt power st).2.device_models, p.2.powerOk := by
  unfold HomeTwinModel.step_device
  cases hl : lookupA t.device_models id with
  | none => exact h
  | some mdl =>
      have hm := h _ (lookupA_mem _ _ _ hl)
      cases mdl with
      | ac m =>
          refine updateAssoc_forall _ _ _ _ h ?_
          exact ac_step_power_nonneg m dt _ _ _ _
      | ev s =>
          simp only [DeviceModel.powerOk] at hm
          refine updateAssoc_forall _ _ _ _ h ?_
          have hstep := ev_step_power s dt t.ev_target_soc
            (decide ((orElseStatus st s.status = "charging" ∨
              orElseStatus st s.status = "on" ∨
              orElseStatus st s.status = "standby") ∧ 1 / 100 < power)) hm.2
          constructor
          · split
            · exact hstep.1
            · exact hstep.1
          · split
            · rw [hstep.2]
              exact hm.2
            · rw [hstep.2]
              exact hm.2
      | wh s =>
          refine updateAssoc_forall _ _ _ _ h ?_
          exact wh_step_power_nonneg s dt st
      | wd m =>
          refine updateAssoc_forall _ _ _ _ h ?_
          exact wd_step_power_nonneg m dt _

/-- `accumulate` never decreases a grid-aligned running total when the added
energy is non-negative. -/
theorem accumulate_total_mono (a : EnergyAccumulator) (power dt : ℚ)
    (hgrid : ∃ k : ℤ, a.total_energy_kwh = (k : ℚ) / 10000)
    (h : 0 ≤ power * (dt / 3600)) :
    a.total_energy_kwh ≤ (a.accumulate power dt).total_energy_kwh := by
  obtain ⟨k, hk⟩ := hgrid
  unfold EnergyAccumulator.accumulate
  simp only
  rw [hk]
  have h2 : (k : ℚ) / 10 ^ 4 ≤ (k : ℚ) / 10000 + power * (dt / 3600) := by
    norm_num
    linarith
  have h3 := roundTo_grid_le h2
  norm_num at h3
  exact h3

/-- The tail of one ingestion — stepping every room, then integrating total
power over the elapsed interval — never decreases the energy total. -/
theorem twin_tail_mono (u : HomeTwinModel) (e0 dtv hour : ℚ)
    (he : u.energy.total_energy_kwh = e0)
    (hgrid : ∃ k : ℤ, e0 = (k : ℚ) / 10000)
    (hpow : ∀ p ∈ u.device_models, p.2.powerOk)
    (hdt : 0 ≤ dtv) :
    e0 ≤ ((u.step_all_rooms dtv hour).energy.accumulate
        ((u.step_all_rooms dtv hour).totalPower) dtv).total_energy_kwh := by
  have henergy : (u.step_all_rooms dtv hour).energy = u.energy := rfl
  have hdev : (u.step_all_rooms dtv hour).device_models = u.device_models := rfl
  have hp : 0 ≤ (u.step_all_rooms dtv hour).totalPower := by
    apply totalPower_nonneg
    rw [hdev]
    exact hpow
  rw [henergy, ← he]
  exact accumulate_total_mono u.energy _ dtv (he ▸ hgrid)
    (mul_nonneg hp (div_nonneg hdt (by norm_num)))

/-- **C2.** The energy accumulator's `total_energy_kwh` is monotonically
non-decreasing across any sequence of ingestions: for the accumulate call
performed by each ingestion (summed device power integrated over the capped
elapsed interval), the total after the call is at least the total before it
— for a twin whose running total lies on the 4-decimal grid `accumulate`
itself maintains, whose devices satisfy the constructor-established
`powerOk` invariant, and with a monotone wall clock. -/
theorem ingest_energy_total_monotone (t : HomeTwinModel) (now hour solar : ℚ)
    (id : ℤ) (power : ℚ) (temp : Option ℚ) (status : Option String)
    (hgrid : ∃ k : ℤ, t.energy.total_energy_kwh = (k : ℚ) / 10000)
    (hpow : ∀ p ∈ t.device_models, p.2.powerOk)
    (hnow : t.last_step_time ≤ now) :
    t.energy.total_energy_kwh ≤
      (t.ingest_telemetry now hour solar id power temp status).2.energy.total_energy_kwh := by
  have hdt : 0 ≤ min (now - t.last_step_time) 60 :=
    le_min (by linarith) (by norm_num)
  cases temp with
  | none =>
      simp only [HomeTwinModel.ingest_telemetry]
      exact twin_tail_mono _ _ _ hour (by rw [step_device_energy]) hgrid
        (step_device_powerOk _ _ _ _ _ hpow) hdt
  | some tc =>
      simp only [HomeTwinModel.ingest_telemetry]
      by_cases hc : (lookupA t.device_models id).map DeviceModel.dtype = some "ac"
      · rw [if_pos hc]
        exact twin_tail_mono _ _ _ hour (by rw [step_device_energy]) hgrid
          (step_device_powerOk _ _ _ _ _ hpow) hdt
      · rw [if_neg hc]
        exact twin_tail_mono _ _ _ hour (by rw [step_device_energy]) hgrid
          (step_device_powerOk _ _ _ _ _ hpow) hdt

/-- Witness for C2 at the concrete one-AC twin: one ingestion for the AC at
wall-clock 60 s never decreases the energy total. -/
theorem ingest_energy_total_monotone_witness :
    twinCE.energy.total_energy_kwh ≤
      (twinCE.ingest_telemetry 60 12 500 1 (9 / 10) none none).2.energy.total_energy_kwh :=
  ingest_energy_total_monotone twinCE 60 12 500 1 (9 / 10) none none
    ⟨0, by show (0 : ℚ) = ((0 : ℤ) : ℚ) / 10000; norm_num⟩
    (by
      intro p hp
      have hp1 : p = (1, DeviceModel.ac {}) := by simpa [twinCE] using hp
      subst hp1
      show (0 : ℚ) ≤ ({} : ACModel).state.power_kw
      norm_num)
    (by show (0 : ℚ) ≤ 60; norm_num)
